import Mathlib

/-!
Shallow embedding of the askgpt conversation manager (src/askgpt.py).

The persistent state touched by the program (session record files, the
current-session pointer file, the model/workspace config files and the
workspaces registry) is modelled explicitly by the structure `FS`.
Scalar config files are modelled by their raw text content (an `Option
String`, with `none` meaning the file is absent); the program writes
`value ++ "\n"` and reads back with `strip`, which we mirror with
`String.trim`. Session record files are an association list from session
name to the stored JSON shape, which is either a bare message list
(legacy) or a structured record whose `model` key may be absent.
-/

namespace AskGpt

/-- A chat message: a role string (`system` / `user` / `assistant`) and content. -/
structure Message where
  role : String
  content : String
deriving DecidableEq, Repr

/-- The in-memory session value produced by `load_session`: always has a model. -/
structure SessionData where
  model : String
  messages : List Message
deriving DecidableEq, Repr

/-- The shape of a session record file on disk: a bare message list (legacy)
or a structured object whose model key may be missing. -/
inductive StoredSession where
  | bare (messages : List Message)
  | record (model : Option String) (messages : List Message)
deriving DecidableEq, Repr

/-- Lookup of a session file by name in the sessions directory. -/
def fsLookup : List (String × StoredSession) → String → Option StoredSession
  | [], _ => none
  | (n, v) :: rest, name => if n = name then some v else fsLookup rest name

/-- Writing a session file: overwrite the existing file or create a new one. -/
def fsWrite : List (String × StoredSession) → String → StoredSession → List (String × StoredSession)
  | [], name, v => [(name, v)]
  | (n, w) :: rest, name, v =>
      if n = name then (n, v) :: rest else (n, w) :: fsWrite rest name v

/-- Unlinking a session file by name. -/
def fsRemove : List (String × StoredSession) → String → List (String × StoredSession)
  | [], _ => []
  | (n, w) :: rest, name =>
      if n = name then fsRemove rest name else (n, w) :: fsRemove rest name

/-- The persistent state of the program: the resolved sessions directory and
the scalar config files (raw contents; `none` = file absent). -/
structure FS where
  sessions : List (String × StoredSession)
  currentSessionFile : Option String
  modelConf : Option String
  workspaceConf : Option String
  workspacesList : List String
deriving DecidableEq, Repr

def DEFAULT_MODEL : String := "gpt-4o"

def DEFAULT_EOF : String := "EOF"

/-- Python `str.strip()`: drop whitespace from both ends. -/
def pyStrip (s : String) : String :=
  String.mk (((s.data.dropWhile Char.isWhitespace).reverse.dropWhile
    Char.isWhitespace).reverse)

/-- `get_default_model`: the stripped content of model.conf, else "gpt-4o". -/
def get_default_model (fs : FS) : String :=
  match fs.modelConf with
  | some t => pyStrip t
  | none => DEFAULT_MODEL

/-- `load_eof_word`: the stripped content of eof.conf, else "EOF". -/
def load_eof_word (conf : Option String) : String :=
  match conf with
  | some t => pyStrip t
  | none => DEFAULT_EOF

/-- `get_current_session`: stripped pointer file content, `none` if absent or blank. -/
def get_current_session (fs : FS) : Option String :=
  match fs.currentSessionFile with
  | some t => if pyStrip t = "" then none else some (pyStrip t)
  | none => none

/-- `set_current_session`: write the name (plus newline) to the pointer file. -/
def set_current_session (fs : FS) (sessionname : String) : FS :=
  { fs with currentSessionFile := some (sessionname ++ "\n") }

def session_exists (fs : FS) (sessionname : String) : Bool :=
  (fsLookup fs.sessions sessionname).isSome

/-- `load_session`: read the record file if present, migrating a legacy bare
list and filling a missing model with the current default; a missing file
yields a fresh record with empty messages. Pure: nothing is written. -/
def load_session (fs : FS) (sessionname : String) : SessionData :=
  match fsLookup fs.sessions sessionname with
  | some (.bare msgs) => { model := get_default_model fs, messages := msgs }
  | some (.record (some m) msgs) => { model := m, messages := msgs }
  | some (.record none msgs) => { model := get_default_model fs, messages := msgs }
  | none => { model := get_default_model fs, messages := [] }

/-- `save_session`: serialize the full record (model plus messages) to the file. -/
def save_session (fs : FS) (sessionname : String) (data : SessionData) : FS :=
  { fs with
    sessions := fsWrite fs.sessions sessionname (.record (some data.model) data.messages) }

def create_session_silent (fs : FS) (sessionname : String) : FS :=
  save_session fs sessionname { model := get_default_model fs, messages := [] }

/-- `create_session`: exit with an error if the record exists (state untouched),
else write the fresh record and switch the pointer to it. -/
def create_session (fs : FS) (sessionname : String) : FS × Except String Unit :=
  if session_exists fs sessionname then
    (fs, .error ("Session " ++ sessionname ++ " already exists."))
  else
    (set_current_session (create_session_silent fs sessionname) sessionname, .ok ())

/-- `delete_session`: exit with an error if absent; else unlink the record file
and, when the deleted name equals the current pointer, unlink the pointer file. -/
def delete_session (fs : FS) (sessionname : String) : FS × Except String Unit :=
  if session_exists fs sessionname then
    let fs1 : FS := { fs with sessions := fsRemove fs.sessions sessionname }
    if get_current_session fs1 = some sessionname then
      ({ fs1 with currentSessionFile := none }, .ok ())
    else
      (fs1, .ok ())
  else
    (fs, .error ("Session " ++ sessionname ++ " does not exist."))

/-- `ensure_current_session`: return the pointer if set; otherwise create the
fallback "master_session" record (only if absent) and point at it. -/
def ensure_current_session (fs : FS) : String × FS :=
  match get_current_session fs with
  | some s => (s, fs)
  | none =>
      let fs1 := if session_exists fs "master_session" then fs
                 else create_session_silent fs "master_session"
      ("master_session", set_current_session fs1 "master_session")

/-- `register_workspace`: append the path to workspaces.json unless present. -/
def register_workspace (fs : FS) (ws_path : String) : FS :=
  if ws_path ∈ fs.workspacesList then fs
  else { fs with workspacesList := fs.workspacesList ++ [ws_path] }

/-- `set_workspace_path`: write the pointer file, then register the path. -/
def set_workspace_path (fs : FS) (ws_path : String) : FS :=
  register_workspace { fs with workspaceConf := some (ws_path ++ "\n") } ws_path

section AssocLemmas

theorem fsLookup_fsWrite_self (ss : List (String × StoredSession)) (name : String)
    (v : StoredSession) : fsLookup (fsWrite ss name v) name = some v := by
  induction ss with
  | nil => simp [fsWrite, fsLookup]
  | cons hd tl ih =>
      obtain ⟨n, w⟩ := hd
      by_cases h : n = name
      · simp [fsWrite, fsLookup, h]
      · simp [fsWrite, fsLookup, h, ih]

theorem fsLookup_fsRemove_self (ss : List (String × StoredSession)) (name : String) :
    fsLookup (fsRemove ss name) name = none := by
  induction ss with
  | nil => simp [fsRemove, fsLookup]
  | cons hd tl ih =>
      obtain ⟨n, w⟩ := hd
      by_cases h : n = name
      · simp [fsRemove, h, ih]
      · simp [fsRemove, fsLookup, h, ih]

end AssocLemmas

/-- C7: for every session record, saving it and loading it back reproduces the
same model and the same message sequence in the same order. -/
theorem save_load_roundtrip (fs : FS) (sessionname : String) (data : SessionData) :
    load_session (save_session fs sessionname data) sessionname = data := by
  obtain ⟨m, msgs⟩ := data
  simp [load_session, save_session, fsLookup_fsWrite_self]

/-- C3: `load_session` always yields a record with a model field: a legacy bare
list is migrated to the current default model with the message list unchanged,
a structured record lacking a model gets the current default, and a missing
file yields a fresh record with empty messages and the current default; in all
cases nothing is persisted (`load_session` returns a value and leaves `fs`
untouched by its type). -/
theorem load_session_migration (fs : FS) (sessionname : String) (m : String)
    (msgs : List Message) :
    (fsLookup fs.sessions sessionname = some (.bare msgs) →
      load_session fs sessionname = { model := get_default_model fs, messages := msgs }) ∧
    (fsLookup fs.sessions sessionname = some (.record none msgs) →
      load_session fs sessionname = { model := get_default_model fs, messages := msgs }) ∧
    (fsLookup fs.sessions sessionname = some (.record (some m) msgs) →
      load_session fs sessionname = { model := m, messages := msgs }) ∧
    (fsLookup fs.sessions sessionname = none →
      load_session fs sessionname = { model := get_default_model fs, messages := [] }) := by
  refine ⟨fun h => ?_, fun h => ?_, fun h => ?_, fun h => ?_⟩ <;> simp [load_session, h]

/-- Concrete store exercising the three stored shapes for the C3 witness. -/
def fsMigrate : FS :=
  { sessions := [("legacy", .bare [{ role := "user", content := "hi" }]),
                 ("nomodel", .record none [{ role := "system", content := "s" }]),
                 ("full", .record (some "gpt-4") [])],
    currentSessionFile := none, modelConf := none, workspaceConf := none,
    workspacesList := [] }

/-- Witness for C3 at concrete inputs: legacy migration, model fill and
missing file all evaluate as stated. -/
theorem load_session_migration_witness :
    load_session fsMigrate "legacy"
      = { model := "gpt-4o", messages := [{ role := "user", content := "hi" }] } ∧
    load_session fsMigrate "nomodel"
      = { model := "gpt-4o", messages := [{ role := "system", content := "s" }] } ∧
    load_session fsMigrate "full" = { model := "gpt-4", messages := [] } ∧
    load_session fsMigrate "fresh" = { model := "gpt-4o", messages := [] } := by
  refine ⟨?_, ?_, ?_, ?_⟩
  · exact (load_session_migration fsMigrate "legacy" "x"
      [{ role := "user", content := "hi" }]).1 (by decide)
  · exact (load_session_migration fsMigrate "nomodel" "x"
      [{ role := "system", content := "s" }]).2.1 (by decide)
  · exact (load_session_migration fsMigrate "full" "gpt-4" []).2.2.1 (by decide)
  · exact (load_session_migration fsMigrate "fresh" "x" []).2.2.2 (by decide)

/-- Occurrence count of a path in the workspace registry. -/
def countOcc (p : String) : List String → Nat
  | [] => 0
  | x :: rest => (if x = p then 1 else 0) + countOcc p rest

theorem countOcc_append (p : String) (l1 l2 : List String) :
    countOcc p (l1 ++ l2) = countOcc p l1 + countOcc p l2 := by
  induction l1 with
  | nil => simp [countOcc]
  | cons x rest ih => simp [countOcc, ih]; omega

theorem countOcc_eq_zero (p : String) (l : List String) (h : p ∉ l) :
    countOcc p l = 0 := by
  induction l with
  | nil => simp [countOcc]
  | cons x rest ih =>
      simp only [List.mem_cons, not_or] at h
      simp [countOcc, Ne.symm h.1, ih h.2]

theorem countOcc_pos (p : String) (l : List String) (h : p ∈ l) :
    1 ≤ countOcc p l := by
  induction l with
  | nil => simp at h
  | cons x rest ih =>
      rcases List.mem_cons.mp h with h1 | h2
      · simp [countOcc, h1.symm]
      · have := ih h2
        simp [countOcc]
        omega

/-- C4: with no current-session pointer set, `ensure_current_session` creates
the fallback record "master_session" (only when no record under that name
exists: otherwise the sessions directory is untouched, and when it must create
it adds exactly that one record), sets the pointer to it and returns it; a
second call with the pointer now set performs no creation, changes nothing and
returns the same name. -/
theorem ensure_current_session_spec (fs : FS) (h : get_current_session fs = none) :
    (ensure_current_session fs).1 = "master_session" ∧
    get_current_session (ensure_current_session fs).2 = some "master_session" ∧
    session_exists (ensure_current_session fs).2 "master_session" = true ∧
    (session_exists fs "master_session" = true →
      (ensure_current_session fs).2.sessions = fs.sessions) ∧
    (session_exists fs "master_session" = false →
      (ensure_current_session fs).2.sessions
        = fsWrite fs.sessions "master_session"
            (.record (some (get_default_model fs)) [])) ∧
    ensure_current_session (ensure_current_session fs).2
      = ((ensure_current_session fs).1, (ensure_current_session fs).2) := by
  have hset : ∀ g : FS,
      get_current_session (set_current_session g "master_session")
        = some "master_session" := fun g => rfl
  by_cases he : session_exists fs "master_session"
  · have key : ensure_current_session fs
        = ("master_session", set_current_session fs "master_session") := by
      simp only [ensure_current_session, h, he, if_true]
    rw [key]
    refine ⟨rfl, hset fs, he, fun _ => rfl, fun hf => ?_, ?_⟩
    · rw [he] at hf; cases hf
    · simp only [ensure_current_session, hset]
  · simp only [Bool.not_eq_true] at he
    have key : ensure_current_session fs
        = ("master_session",
            set_current_session (create_session_silent fs "master_session")
              "master_session") := by
      simp only [ensure_current_session, h, he, Bool.false_eq_true, if_false]
    rw [key]
    refine ⟨rfl, hset _, ?_, fun ht => ?_, fun _ => rfl, ?_⟩
    · show session_exists (create_session_silent fs "master_session") "master_session" = true
      simp [session_exists, create_session_silent, save_session, fsLookup_fsWrite_self]
    · rw [he] at ht; cases ht
    · simp only [ensure_current_session, hset]

/-- Witness for C4 on the empty state: the fallback is created, pointed at and
returned, and a repeated call is a no-op. -/
theorem ensure_current_session_spec_witness :
    (ensure_current_session
        { sessions := [], currentSessionFile := none, modelConf := none,
          workspaceConf := none, workspacesList := [] }).1 = "master_session" ∧
    get_current_session (ensure_current_session
        { sessions := [], currentSessionFile := none, modelConf := none,
          workspaceConf := none, workspacesList := [] }).2 = some "master_session" := by
  refine ⟨?_, ?_⟩
  · exact (ensure_current_session_spec
      { sessions := [], currentSessionFile := none, modelConf := none,
        workspaceConf := none, workspacesList := [] } (by decide)).1
  · exact (ensure_current_session_spec
      { sessions := [], currentSessionFile := none, modelConf := none,
        workspaceConf := none, workspacesList := [] } (by decide)).2.1

/-- C5: deleting an existing session removes its record file; when the deleted
name equals the current-session pointer the pointer file is removed, and when
it does not, the pointer file is left byte-identical. -/
theorem delete_session_pointer_spec (fs : FS) (sessionname : String)
    (h : session_exists fs sessionname = true) :
    (delete_session fs sessionname).2 = Except.ok () ∧
    fsLookup (delete_session fs sessionname).1.sessions sessionname = none ∧
    (get_current_session fs = some sessionname →
      (delete_session fs sessionname).1.currentSessionFile = none) ∧
    (get_current_session fs ≠ some sessionname →
      (delete_session fs sessionname).1.currentSessionFile = fs.currentSessionFile) := by
  have hg : get_current_session { fs with sessions := fsRemove fs.sessions sessionname }
      = get_current_session fs := rfl
  by_cases hc : get_current_session fs = some sessionname
  · simp [delete_session, h, hg, hc, fsLookup_fsRemove_self]
  · simp [delete_session, h, hg, hc, fsLookup_fsRemove_self]

/-- Concrete store with a current session "a" for the C5 witness. -/
def fsDelete : FS :=
  { sessions := [("a", .record (some "m") []), ("b", .bare [])],
    currentSessionFile := some "a\n", modelConf := none, workspaceConf := none,
    workspacesList := [] }

/-- Witness for C5: deleting the current session "a" clears the pointer and
removes the record; deleting the other session "b" leaves the pointer file
unchanged. -/
theorem delete_session_pointer_spec_witness :
    (delete_session fsDelete "a").1.currentSessionFile = none ∧
    fsLookup (delete_session fsDelete "a").1.sessions "a" = none ∧
    (delete_session fsDelete "b").1.currentSessionFile = some "a\n" := by
  refine ⟨?_, ?_, ?_⟩
  · exact (delete_session_pointer_spec fsDelete "a" (by decide)).2.2.1 (by decide)
  · exact (delete_session_pointer_spec fsDelete "a" (by decide)).2.1
  · exact (delete_session_pointer_spec fsDelete "b" (by decide)).2.2.2 (by decide)

/-- C6: creating a session that already exists fails with the already-exists
error and leaves the state untouched; otherwise creation succeeds and a
subsequent load yields the current default model and an empty message list. -/
theorem create_session_spec (fs : FS) (sessionname : String) :
    (session_exists fs sessionname = true →
      create_session fs sessionname
        = (fs, Except.error ("Session " ++ sessionname ++ " already exists."))) ∧
    (session_exists fs sessionname = false →
      (create_session fs sessionname).2 = Except.ok () ∧
      load_session (create_session fs sessionname).1 sessionname
        = { model := get_default_model fs, messages := [] }) := by
  constructor
  · intro h
    simp [create_session, h]
  · intro h
    refine ⟨by simp [create_session, h], ?_⟩
    simp [create_session, h, load_session, set_current_session, create_session_silent,
      save_session, fsLookup_fsWrite_self]

/-- Empty persistent state, used by several witnesses. -/
def fsEmpty : FS :=
  { sessions := [], currentSessionFile := none, modelConf := none,
    workspaceConf := none, workspacesList := [] }

/-- Witness for C6: creating "s" in the empty state then loading it yields the
default model and no messages; creating "full" over an existing record fails
and returns the state unchanged. -/
theorem create_session_spec_witness :
    load_session (create_session fsEmpty "s").1 "s"
      = { model := "gpt-4o", messages := [] } ∧
    create_session fsMigrate "full"
      = (fsMigrate, Except.error "Session full already exists.") := by
  constructor
  · exact ((create_session_spec fsEmpty "s").2 (by decide)).2
  · exact (create_session_spec fsMigrate "full").1 (by decide)

/-- C8: registering an already-present path leaves the registry unchanged, a
second `set_workspace_path` with the same path is a complete no-op, and two
consecutive sets of the same path leave the registry containing that path
exactly once (from any registry holding it at most once). -/
theorem set_workspace_registry_spec (fs : FS) (ws_path : String) :
    (ws_path ∈ fs.workspacesList → register_workspace fs ws_path = fs) ∧
    set_workspace_path (set_workspace_path fs ws_path) ws_path
      = set_workspace_path fs ws_path ∧
    (countOcc ws_path fs.workspacesList ≤ 1 →
      countOcc ws_path
        (set_workspace_path (set_workspace_path fs ws_path) ws_path).workspacesList
        = 1) := by
  refine ⟨fun h => by simp [register_workspace, h], ?_, ?_⟩
  · by_cases hm : ws_path ∈ fs.workspacesList
    · simp [set_workspace_path, register_workspace, hm]
    · simp [set_workspace_path, register_workspace, hm]
  · intro hle
    by_cases hm : ws_path ∈ fs.workspacesList
    · have h1 := countOcc_pos ws_path fs.workspacesList hm
      simp [set_workspace_path, register_workspace, hm]
      omega
    · simp [set_workspace_path, register_workspace, hm, countOcc_append,
        countOcc_eq_zero ws_path fs.workspacesList hm, countOcc]

/-- Witness for C8: two sets of the same path on the empty state leave the
registry with exactly one occurrence. -/
theorem set_workspace_registry_spec_witness :
    countOcc "/tmp/ws"
      (set_workspace_path (set_workspace_path fsEmpty "/tmp/ws") "/tmp/ws").workspacesList
      = 1 :=
  (set_workspace_registry_spec fsEmpty "/tmp/ws").2.2 (by decide)

/-! ## Display formatter -/

def hexDigit (n : Nat) : Char :=
  if n < 10 then Char.ofNat (48 + n) else Char.ofNat (87 + n)

/-- JSON escaping of one character as json.dumps with ensure_ascii=False does. -/
def jsonEscapeChar (c : Char) : String :=
  if c = '"' then "\\\""
  else if c = '\\' then "\\\\"
  else if c = '\n' then "\\n"
  else if c = '\t' then "\\t"
  else if c = '\r' then "\\r"
  else if c = '\x08' then "\\b"
  else if c = '\x0c' then "\\f"
  else if c.toNat < 32 then
    "\\u00" ++ String.singleton (hexDigit (c.toNat / 16))
      ++ String.singleton (hexDigit (c.toNat % 16))
  else String.singleton c

def jsonStr (s : String) : String :=
  "\"" ++ String.join (s.data.map jsonEscapeChar) ++ "\""

def dumpMessage (m : Message) : String :=
  "    \x7b\n      \"role\": " ++ jsonStr m.role
    ++ ",\n      \"content\": " ++ jsonStr m.content ++ "\n    \x7d"

def dumpMessages (ms : List Message) : String :=
  match ms with
  | [] => "[]"
  | _ => "[\n" ++ String.intercalate ",\n" (ms.map dumpMessage) ++ "\n  ]"

/-- `display_all_json`: json.dumps of the full record, indent 2, key order
model then messages, as printed by the -a and -p commands. -/
def display_all_json (data : SessionData) : String :=
  "\x7b\n  \"model\": " ++ jsonStr data.model
    ++ ",\n  \"messages\": " ++ dumpMessages data.messages ++ "\n\x7d"

/-- The -a command branch of `main`: resolve the current session, load it and
dump it as JSON. -/
def cmd_dump_all (fs : FS) : FS × String :=
  let r := ensure_current_session fs
  (r.2, display_all_json (load_session r.2 r.1))

/-- The -p command branch of `main`: resolve the current session, load it and
dump it as JSON. -/
def cmd_dump_past (fs : FS) : FS × String :=
  let r := ensure_current_session fs
  (r.2, display_all_json (load_session r.2 r.1))

/-! ## Conversation engine: the interactive loop -/

/-- What the inner line-reading loop does with one input line. -/
inductive StepResult where
  | cont (buffer : List String)
  | exitShowHistory
  | dispatch (buffer : List String)
deriving DecidableEq, Repr

/-- One iteration of the inner reading loop of `interactive_mode`: a blank
line (after stripping) either shows history and returns (no query asked yet)
or is skipped; a line stripping to the eof word breaks to dispatch; anything
else is appended to the accumulated lines. -/
def processLine (eof_word : String) (no_question_asked_yet : Bool)
    (buffer : List String) (line : String) : StepResult :=
  if pyStrip line = "" then
    if no_question_asked_yet then .exitShowHistory else .cont buffer
  else if pyStrip line = eof_word then .dispatch buffer
  else .cont (buffer ++ [line])

/-- `query_gpt`: error out before any network attempt when the API key is
absent (the empty string, as os.environ.get defaults); otherwise consult the
external client with the session model and messages. -/
def query_gpt (api_key : String)
    (client : String → List Message → Except String String)
    (data : SessionData) : Except String String :=
  if api_key = "" then .error "Error: OPENAI_API_KEY not set."
  else client data.model data.messages

/-- The dispatch procedure of `interactive_mode`: append the joined user
message in memory, call the model client, and only on success append the
assistant reply and persist the whole record; on failure the command aborts
with the filesystem untouched and the in-memory append discarded. -/
def dispatch_turn (query : SessionData → Except String String) (fs : FS)
    (sessionname : String) (data : SessionData) (user_message : String) :
    FS × Except String SessionData :=
  let data1 : SessionData :=
    { data with messages := data.messages ++ [{ role := "user", content := user_message }] }
  match query data1 with
  | .error e => (fs, .error e)
  | .ok reply =>
      let data2 : SessionData :=
        { data1 with messages := data1.messages ++ [{ role := "assistant", content := reply }] }
      (save_session fs sessionname data2, .ok data2)

/-- The interactive loop of `interactive_mode`, run over a finite list of
input lines (the list ending models EOF on stdin). Returns the final
filesystem and the list of joined user messages handed to the model client
(one entry per client invocation, including a final failing one). -/
def runInteractive (eof_word : String) (query : SessionData → Except String String)
    (sessionname : String) :
    List String → Bool → List String → SessionData → FS → FS × List String
  | [], _, _, _, fs => (fs, [])
  | line :: rest, no_question_asked_yet, buffer, data, fs =>
      match processLine eof_word no_question_asked_yet buffer line with
      | .exitShowHistory => (fs, [])
      | .cont buffer2 =>
          runInteractive eof_word query sessionname rest no_question_asked_yet buffer2 data fs
      | .dispatch buffer2 =>
          if buffer2.isEmpty then
            runInteractive eof_word query sessionname rest no_question_asked_yet [] data fs
          else
            let user_message := String.intercalate "\n" buffer2
            match dispatch_turn query fs sessionname data user_message with
            | (fs2, .error _) => (fs2, [user_message])
            | (fs2, .ok data2) =>
                let r := runInteractive eof_word query sessionname rest false [] data2 fs2
                (r.1, user_message :: r.2)

/-- C1 counterexample: a line that is blank after stripping, read while the
accumulation buffer is non-empty, is not appended to the buffer. With a query
already sent the buffer stays `["hello"]` rather than gaining the blank line,
and with no query sent yet the loop leaves the accumulating state entirely
and shows history. -/
theorem blank_line_append_cx :
    processLine "EOF" false ["hello"] "" ≠ StepResult.cont ["hello", ""] ∧
    processLine "EOF" false ["hello"] "" = StepResult.cont ["hello"] ∧
    processLine "EOF" true ["hello"] "" = StepResult.exitShowHistory := by
  decide

/-- C1 amended: a line blank after stripping is never appended to the buffer,
whatever the buffer holds: when no query has been sent yet the loop displays
history and terminates (discarding the buffer), and once a query has been
sent the line is a no-op that leaves the buffer unchanged and keeps the loop
accumulating. -/
theorem blank_line_behavior (eof_word line : String) (no_question_asked_yet : Bool)
    (buffer : List String) (h : pyStrip line = "") :
    processLine eof_word no_question_asked_yet buffer line
      = if no_question_asked_yet then StepResult.exitShowHistory
        else StepResult.cont buffer := by
  simp [processLine, h]

/-- Witness for the amended C1 at a concrete blank line and non-empty buffer. -/
theorem blank_line_behavior_witness :
    processLine "EOF" false ["hello"] "  " = StepResult.cont ["hello"] := by
  have h := blank_line_behavior "EOF" "  " false ["hello"] (by decide)
  simpa using h

/-- C2: when the model-client call fails during dispatch, the turn aborts with
the stored state byte-identical to its pre-call value and no session data
returned (the in-memory user-message append is discarded); persistence in
`dispatch_turn` happens only in the success branch. -/
theorem dispatch_turn_failure (query : SessionData → Except String String) (fs : FS)
    (sessionname : String) (data : SessionData) (user_message e : String)
    (h : query { data with
        messages := data.messages ++ [{ role := "user", content := user_message }] }
      = .error e) :
    dispatch_turn query fs sessionname data user_message = (fs, Except.error e) := by
  simp [dispatch_turn, h]

/-- Witness for C2: a missing credential makes `query_gpt` fail before any
client attempt, and the dispatch leaves the state untouched. -/
theorem dispatch_turn_failure_witness :
    dispatch_turn (query_gpt "" (fun _ _ => Except.ok "hi")) fsEmpty "s"
      { model := "gpt-4o", messages := [] } "hello"
      = (fsEmpty, Except.error "Error: OPENAI_API_KEY not set.") :=
  dispatch_turn_failure (query_gpt "" (fun _ _ => Except.ok "hi")) fsEmpty "s"
    { model := "gpt-4o", messages := [] } "hello" "Error: OPENAI_API_KEY not set." rfl

/-- C9: the -a and -p command branches are extensionally equal: on every state
they resolve the same session, load it, and print the same JSON dump. -/
theorem dump_all_eq_dump_past (fs : FS) : cmd_dump_all fs = cmd_dump_past fs := rfl

theorem runInteractive_empty_eof (query : SessionData → Except String String)
    (sessionname : String) :
    ∀ (lines : List String) (q : Bool) (buffer : List String) (data : SessionData)
      (fs : FS), (runInteractive "" query sessionname lines q buffer data fs).2 = [] := by
  intro lines
  induction lines with
  | nil => intro q buffer data fs; rfl
  | cons line rest ih =>
      intro q buffer data fs
      by_cases hl : pyStrip line = ""
      · cases q
        · simp [runInteractive, processLine, hl, ih]
        · simp [runInteractive, processLine, hl]
      · simp [runInteractive, processLine, hl, ih]

/-- C10: the blank-line test precedes the sentinel test, so a line blank after
stripping is never treated as a sentinel; consequently, when the stored
sentinel strips to the empty string, the interactive loop never dispatches and
the model client is never invoked, whatever the input lines. -/
theorem empty_sentinel_no_dispatch (stored : String) (h : pyStrip stored = "") :
    (∀ (eof_word line : String) (q : Bool) (buffer buffer2 : List String),
        pyStrip line = "" →
          processLine eof_word q buffer line ≠ StepResult.dispatch buffer2) ∧
    (∀ (query : SessionData → Except String String) (sessionname : String)
        (lines : List String) (q : Bool) (buffer : List String)
        (data : SessionData) (fs : FS),
        (runInteractive (load_eof_word (some stored)) query sessionname
            lines q buffer data fs).2 = []) := by
  constructor
  · intro eof_word line q buffer buffer2 hl
    cases q <;> simp [processLine, hl]
  · have he : load_eof_word (some stored) = "" := by simp [load_eof_word, h]
    intro query sessionname lines q buffer data fs
    rw [he]
    exact runInteractive_empty_eof query sessionname lines q buffer data fs

/-- Witness for C10: with a sentinel file holding only whitespace, the lines
"hello" then "EOF" never reach the model client. -/
theorem empty_sentinel_no_dispatch_witness :
    (runInteractive (load_eof_word (some " \n")) (fun _ => Except.ok "hi") "s"
        ["hello", "EOF"] false [] { model := "gpt-4o", messages := [] } fsEmpty).2
      = [] :=
  (empty_sentinel_no_dispatch " \n" (by decide)).2 (fun _ => Except.ok "hi") "s"
    ["hello", "EOF"] false [] { model := "gpt-4o", messages := [] } fsEmpty

end AskGpt
